import Mathlib

/-!
Verification development for `larq/quantizers.py` (repository `sfalkena/larq`).

Tensors are modelled as `List ℚ` (rank-1, elementwise semantics); exact
rational arithmetic stands in for float arithmetic at the small concrete
inputs considered, where the two agree on every comparison and rounding
decision involved.  Shape-level behaviour of the spatial variants
(LAB / Niblack / Sauvola) is modelled by functions `List Nat → Option (List Nat)`
on shapes.  Fallible Python code (constructors that raise `ValueError` /
`TypeError`) is modelled with `Except String`.
-/

/-- `tf.sign`: `-1` for negative, `0` for zero, `+1` for positive.
This is the TensorFlow convention, used directly by `ste_tern`
(`tf.sign` at quantizers.py line 139). -/
def tfSign (q : ℚ) : ℚ :=
  if q < 0 then -1 else if q = 0 then 0 else 1

/-- Modelled from the spec: `larq.math.sign` (module `larq/math.py` is not under
`src/`); the spec fixes `sign(0) = +1` ("sign(0) must resolve to +1 (not 0) to
match the binary \x7b-1,+1\x7d convention"). Used by `ste_sign`, `approx_sign`,
`swish_sign`. -/
def larqSign (q : ℚ) : ℚ :=
  if q < 0 then -1 else 1

/-- Modelled from the spec: `larq.math.heaviside` (module `larq/math.py` is not
under `src/`); outputs in \x7b0,+1\x7d with `q(x) = +1` for `x > 0` and `0` for
`x ≤ 0` (SteHeaviside docstring, quantizers.py lines 327-332). -/
def larqHeaviside (q : ℚ) : ℚ :=
  if 0 < q then 1 else 0

/-- `_clipped_gradient(x, dy, clip_value)` (quantizers.py lines 74-82):
`dy` unchanged when `clip_value` is `None`; otherwise `dy` masked to zero
where `¬ (|x| ≤ clip_value)` (`tf.where(less_equal(abs x, c), dy, zeros)`). -/
def clipped_gradient (x dy : List ℚ) (clip_value : Option ℚ) : List ℚ :=
  match clip_value with
  | none => dy
  | some c => List.zipWith (fun xi dyi => if |xi| ≤ c then dyi else 0) x dy

/-- Forward pass of `ste_sign` (quantizers.py lines 85-93): elementwise
`math.sign`. -/
def ste_sign (x : List ℚ) : List ℚ :=
  x.map larqSign

/-- Backward pass of `ste_sign`: `grad dy = _clipped_gradient(x, dy, clip_value)`
(quantizers.py lines 88-89). -/
def ste_sign_grad (x : List ℚ) (clip_value : Option ℚ) (dy : List ℚ) : List ℚ :=
  clipped_gradient x dy clip_value

/-- Forward pass of `approx_sign` (quantizers.py lines 100-108). -/
def approx_sign (x : List ℚ) : List ℚ :=
  x.map larqSign

/-- Backward pass of `approx_sign` (quantizers.py lines 102-106):
`(1 - |x|) * 2 * dy` where `|x| ≤ 1`, else `0`. -/
def approx_sign_grad (x dy : List ℚ) : List ℚ :=
  List.zipWith (fun xi dyi => if |xi| ≤ 1 then (1 - |xi|) * 2 * dyi else 0) x dy

/-- Forward pass of `swish_sign` (quantizers.py lines 111-120): elementwise
`math.sign` (the backward pass involves `tanh`/`cosh` and is not needed by any
claim). -/
def swish_sign (x : List ℚ) : List ℚ :=
  x.map larqSign

/-- The per-call threshold of `ste_tern` (quantizers.py lines 131-134):
`0.7 * sum(|x|) / size(x)` when `ternary_weight_networks` is set, else the
fixed `threshold_value`. -/
def ste_tern_threshold (threshold_value : ℚ) (ternary_weight_networks : Bool)
    (x : List ℚ) : ℚ :=
  if ternary_weight_networks then
    (7 / 10) * (x.map (fun v => |v|)).sum / (x.length : ℚ)
  else threshold_value

/-- Forward pass of `ste_tern` (quantizers.py lines 123-141):
`tf.sign(tf.sign(x + t) + tf.sign(x - t))` elementwise, where `t` is the
threshold above.  Note both the inner and outer sign are `tf.sign`
(zero maps to zero), not `larq.math.sign`. -/
def ste_tern (x : List ℚ) (threshold_value : ℚ) (ternary_weight_networks : Bool) :
    List ℚ :=
  let t := ste_tern_threshold threshold_value ternary_weight_networks x
  x.map (fun xi => tfSign (tfSign (xi + t) + tfSign (xi - t)))

/-- Backward pass of `ste_tern` (quantizers.py lines 136-137). -/
def ste_tern_grad (x : List ℚ) (clip_value : Option ℚ) (dy : List ℚ) : List ℚ :=
  clipped_gradient x dy clip_value

/-- Forward pass of `ste_heaviside` (quantizers.py lines 144-152): elementwise
`math.heaviside`. -/
def ste_heaviside (x : List ℚ) : List ℚ :=
  x.map larqHeaviside

/-- Backward pass of `ste_heaviside` (quantizers.py lines 147-148). -/
def ste_heaviside_grad (x : List ℚ) (clip_value : Option ℚ) (dy : List ℚ) : List ℚ :=
  clipped_gradient x dy clip_value

/-- `tf.round`: rounds to the nearest integer, rounding halves to the nearest
even integer (TensorFlow's documented banker's rounding), modelled on `ℚ`. -/
def roundHalfEven (q : ℚ) : ℤ :=
  let f := ⌊q⌋
  let r := q - (f : ℚ)
  if r < 1/2 then f
  else if 1/2 < r then f + 1
  else if 2 ∣ f then f else f + 1

/-- `tf.math.divide_no_nan(a, b)`: `a / b`, but `0` when `b = 0`. -/
def divide_no_nan (a b : ℚ) : ℚ :=
  if b = 0 then 0 else a / b

/-- `tf.clip_by_value(q, lo, hi)`. -/
def clip_by_value (q lo hi : ℚ) : ℚ :=
  max lo (min hi q)

/-- `tf.math.reduce_max(tf.math.abs(x))` over all elements (quantizers.py
line 771); the `0` seed is never the result on a nonempty list since
`|v| ≥ 0`. -/
def reduce_max_abs (x : List ℚ) : ℚ :=
  (x.map (fun v => |v|)).foldr max 0

/-- `DoReFa` state: `precision` is set to `k_bit` (quantizers.py line 755) and
`mode` is kept as the raw string so that the defensive re-validation in `call`
can be stated. -/
structure DoReFa where
  precision : Nat
  mode : String

/-- The `ValueError` message raised for a bad `mode`, identical at
construction (quantizers.py lines 757-761) and at call time (lines 798-802). -/
def DoReFa.errMsg (mode : String) : String :=
  "Invalid DoReFa quantizer mode " ++ mode ++ ". " ++
    "Valid values are \x27activations\x27 and \x27weights\x27."

/-- `DoReFa.__init__(k_bit, mode)` (quantizers.py lines 754-764): raises
`ValueError` unless `mode` is `"activations"` or `"weights"`. -/
def DoReFa.init (k_bit : Nat) (mode : String) : Except String DoReFa :=
  if mode = "activations" ∨ mode = "weights" then .ok ⟨k_bit, mode⟩
  else .error (DoReFa.errMsg mode)

/-- `n = 2 ** self.precision - 1` (quantizers.py line 806). -/
def dorefa_n (k_bit : Nat) : ℚ :=
  2 ^ k_bit - 1

/-- Forward pass of `_k_bit_with_identity_grad` (quantizers.py lines 804-807):
`tf.round(x * n) / n`. -/
def k_bit_with_identity_grad (k_bit : Nat) (x : List ℚ) : List ℚ :=
  x.map (fun v => (roundHalfEven (v * dorefa_n k_bit) : ℚ) / dorefa_n k_bit)

/-- Backward pass of `_k_bit_with_identity_grad`: `lambda dy: dy`
(quantizers.py line 807). -/
def k_bit_identity_grad (dy : List ℚ) : List ℚ :=
  dy

/-- `DoReFa.weight_preprocess` (quantizers.py lines 766-789), parameterized by
the real-valued `tf.math.tanh`, which has no exact rational form; every claim
below only uses it at `0`, where `tanh 0 = 0`.  The `tf.stop_gradient` on the
dividend only affects the backward pass and is invisible to forward values. -/
def weight_preprocess (tanh : ℚ → ℚ) (x : List ℚ) : List ℚ :=
  let limited := x.map tanh
  let dividend := reduce_max_abs limited
  limited.map (fun v => divide_no_nan v (2 * dividend) + 1/2)

/-- `DoReFa.call` (quantizers.py lines 791-815): clip (activations mode) or
`weight_preprocess` (weights mode), then `_k_bit_with_identity_grad`, then for
weights mode rescale `2*q - 1`; any other mode raises the same `ValueError` as
`__init__`. -/
def DoReFa.call (tanh : ℚ → ℚ) (q : DoReFa) (x : List ℚ) :
    Except String (List ℚ) :=
  if q.mode = "activations" then
    .ok (k_bit_with_identity_grad q.precision (x.map (fun v => clip_by_value v 0 1)))
  else if q.mode = "weights" then
    .ok ((k_bit_with_identity_grad q.precision (weight_preprocess tanh x)).map
      (fun v => 2 * v - 1))
  else
    .error (DoReFa.errMsg q.mode)

/-- `Quantizer.compute_output_shape` (quantizers.py lines 164-165): returns
`input_shape` unchanged. -/
def compute_output_shape (input_shape : List Nat) : List Nat :=
  input_shape

/-- `_BaseQuantizer.call` (quantizers.py lines 181-184): returns `inputs`
unchanged (the flip-ratio metric, when present, only consumes `inputs` as a
side channel).  `NoOp.call` is exactly this inherited method. -/
def base_quantizer_call (inputs : List ℚ) : List ℚ :=
  inputs

/-- `MagnitudeAwareSign.call` (quantizers.py lines 572-578) on a rank-1
tensor: the reduction axes `list(range(len(shape) - 1))` are empty for rank 1,
so `reduce_mean` is the identity and `scale_factor = |inputs|` elementwise;
the output is `scale_factor * ste_sign(inputs)` (`tf.stop_gradient` does not
affect forward values). -/
def magnitude_aware_sign (x : List ℚ) : List ℚ :=
  List.zipWith (fun s v => s * v) (x.map (fun v => |v|)) (ste_sign x)

/-- Modelled from the spec: `larq.layers.QuantDepthwiseConv2D` (module
`larq/layers.py` is not under `src/`) with `kernel_size=3, strides=1,
padding="same", depth_multiplier=2` "producing two channels per input
channel" at unchanged spatial size: `[n,h,w,c] ↦ [n,h,w,2c]` (shape level). -/
def quant_depthwise_conv2d_shape (depth_multiplier : Nat) :
    List Nat → Option (List Nat)
  | [n, h, w, c] => some [n, h, w, depth_multiplier * c]
  | _ => none

/-- `tf.reshape(x, [-1, h, w, 2, c])` (quantizers.py line 464) at shape
level: the `-1` dimension is inferred as the total element count divided by
the product of the given dimensions. -/
def reshape_lab_shape (total h w c : Nat) : List Nat :=
  [total / (h * w * 2 * c), h, w, 2, c]

/-- `tf.argmax(x, axis=3)` on a rank-5 tensor (quantizers.py line 448)
followed by `tf.where` with scalar branches (line 449), which preserves the
argmax result's shape. -/
def argmax_axis3_shape : List Nat → Option (List Nat)
  | [n, h, w, _, c] => some [n, h, w, c]
  | _ => none

/-- Shape semantics of `LAB.call` (quantizers.py lines 445-468): depthwise
conv, reshape to `[-1,h,w,2,c]`, scalar multiplication by beta (shape
preserving), then the soft-argmax discretizer.  `build` (lines 436-442)
destructures the input shape into four components, so only rank-4 shapes are
accepted. -/
def lab_call_shape (s : List Nat) : Option (List Nat) :=
  match s with
  | [n, h, w, c] =>
    (quant_depthwise_conv2d_shape 2 [n, h, w, c]).bind fun cs =>
      argmax_axis3_shape (reshape_lab_shape cs.prod h w c)
  | _ => none

/-- `tf.keras.layers.AveragePooling2D(n, strides=1, padding="same")`
(quantizers.py lines 488, 521): with "same" padding and stride 1 the output
spatial size equals the input spatial size, so rank-4 shapes are preserved. -/
def avg_pool_same_shape : List Nat → Option (List Nat)
  | [b, h, w, c] => some [b, h, w, c]
  | _ => none

/-- Shape semantics of `Niblack.call` and `Sauvola.call` (quantizers.py lines
492-501 and 525-535): the pooled mean/std have the pooling output shape; all
remaining operations (elementwise arithmetic and the nested `SteSign`) combine
equal-shaped tensors, so they require and preserve that shape.  `build`
destructures the input shape into four components, so only rank-4 shapes are
accepted. -/
def niblack_sauvola_call_shape (s : List Nat) : Option (List Nat) :=
  (avg_pool_same_shape s).bind fun mnShape =>
    if mnShape = s then some s else none

/-- Values stored in a Keras configuration record. -/
inductive CVal
  | s (v : String)
  | q (v : ℚ)
  | b (v : Bool)
  deriving DecidableEq

/-- The base `tf.keras.layers.Layer.get_config` (external framework, documented
behaviour): always contains the layer's `name`, `trainable` flag and `dtype`.
Every quantizer's `get_config` extends this record via
`{**super().get_config(), ...}`. -/
def layer_get_config (name : String) : List (String × CVal) :=
  [("name", .s name), ("trainable", .b true), ("dtype", .s "float32")]

/-- `SteSign` state: `clip_value` (quantizers.py line 272) and the Keras layer
name, which `__init__` sets to `"ste_sign"` plus a fresh uid (line 273). -/
structure SteSignState where
  clip_value : ℚ
  name : String
  deriving DecidableEq

/-- `SteSign.__init__(clip_value, **kwargs)` (quantizers.py lines 271-273):
it invokes `super().__init__(name="ste_sign"+uid, **kwargs)`.  Python raises
`TypeError` at that call when `kwargs` itself binds `name`, because `name`
would receive two values. -/
def steSign_init (clip_value : ℚ) (uid : Nat) (kwargs : List (String × CVal)) :
    Except String SteSignState :=
  if (kwargs.map Prod.fst).contains "name" then
    .error "TypeError: __init__() got multiple values for keyword argument \x27name\x27"
  else
    .ok ⟨clip_value, "ste_sign" ++ toString uid⟩

/-- `SteSign.get_config` (quantizers.py lines 279-280):
`{**super().get_config(), "clip_value": self.clip_value}`. -/
def steSign_get_config (q : SteSignState) : List (String × CVal) :=
  layer_get_config q.name ++ [("clip_value", .q q.clip_value)]

/-- Look up the rational value stored under `key`, with a default. -/
def cfg_lookup_q (cfg : List (String × CVal)) (key : String) (dflt : ℚ) : ℚ :=
  match cfg.lookup key with
  | some (.q v) => v
  | _ => dflt

/-- Keras `from_config` (external framework, documented behaviour): the
default implementation is `cls(**config)`.  For `SteSign` the `clip_value`
entry is consumed by the named parameter and every other entry — including
`name`, which `layer_get_config` always produces — is forwarded in
`**kwargs`. -/
def steSign_from_config (cfg : List (String × CVal)) (uid : Nat) :
    Except String SteSignState :=
  steSign_init (cfg_lookup_q cfg "clip_value" 1) uid
    (cfg.filter (fun p => p.1 ≠ "clip_value"))

/-- Modelled from the spec: the alias strings registered through
`larq.utils.register_alias` (module `larq/utils.py` is not under `src/`;
the decorators are visible in quantizers.py lines 234, 283, 322, 371, 418,
474, 507, 541, 584, 663). -/
def registered_aliases : List String :=
  ["ste_sign", "approx_sign", "ste_heaviside", "swish_sign", "LAB",
   "Niblack", "Sauvola", "magnitude_aware_sign", "ste_tern", "dorefa_quantizer"]

/-- The class names present in the module's `globals()` and passed to
`deserialize` as `module_objects` (quantizers.py lines 833-839 together with
the class definitions and aliases at lines 231 and 823). -/
def module_global_names : List String :=
  ["ApproxSign", "DoReFa", "DoReFaQuantizer", "MagnitudeAwareSign", "NoOp",
   "NoOpQuantizer", "Quantizer", "SteHeaviside", "SteSign", "SteTern",
   "SwishSign", "LAB", "Niblack", "Sauvola"]

/-- A name resolvable by `deserialize`: a registered alias or a module-global
class name. -/
def resolvable (s : String) : Bool :=
  registered_aliases.contains s || module_global_names.contains s

/-- The identifiers `get` dispatches on (quantizers.py lines 842-853):
`None`, a config mapping (class name plus constructor arguments), a string,
an already-constructed callable, or anything else. -/
inductive Identifier
  | none
  | dict (clsName : String) (cfg : List (String × CVal))
  | str (s : String)
  | callable (tag : Nat)
  | other (repr : String)

/-- What `get` resolves to: a freshly constructed quantizer instance
(class name plus the constructor arguments it was built from) or the callable
passed through unchanged. -/
inductive Resolved
  | inst (clsName : String) (cfg : List (String × CVal))
  | callable (tag : Nat)
  deriving DecidableEq

/-- Modelled from the spec: `deserialize` (quantizers.py lines 833-839)
delegates to `tf.keras.utils.deserialize_keras_object` with
`printable_module_name="quantization function"`; a string or config name is
resolved against the registered names, and an unknown name fails with the
framework's "Unknown \x7bprintable_module_name\x7d: \x7bname\x7d" error. -/
def deserialize (clsName : String) (cfg : List (String × CVal)) :
    Except String Resolved :=
  if resolvable clsName then .ok (.inst clsName cfg)
  else .error ("Unknown quantization function: " ++ clsName)

/-- `get(identifier)` (quantizers.py lines 842-853).  (Named with the module
qualifier since plain `get` collides with `MonadState.get`.) -/
def quantizers.get (id : Identifier) : Except String (Option Resolved) :=
  match id with
  | .none => .ok none
  | .dict c cfg => (deserialize c cfg).map some
  | .str s => (deserialize s []).map some
  | .callable t => .ok (some (.callable t))
  | .other r =>
    .error ("Could not interpret quantization function identifier: " ++ r)

/-- The concrete quantizer variants (LAB carries its constructor `beta`
argument, `None` meaning "learn beta"). -/
inductive Variant
  | noOp
  | steSign
  | approxSign
  | steHeaviside
  | swishSign
  | magnitudeAwareSign
  | steTern
  | doReFa
  | lab (beta : Option ℚ)
  | niblack
  | sauvola
  deriving DecidableEq

/-- `_BaseQuantizer.non_trainable_weights` (quantizers.py lines 186-188):
overridden to return the empty list for every variant. -/
def non_trainable_weights (v : Variant) : List String :=
  match v with
  | _ => []

/-- The trainable variables each variant owns, read off the source's attribute
assignments under Keras's documented auto-tracking of `tf.Variable` and layer
attributes.  `LAB.__init__` (quantizers.py line 434) sets
`soft_argmax_beta = tf.Variable(1.0)` whenever the `beta` argument is falsy
(`None` or `0.0`), and `tf.Variable` defaults to `trainable=True`;
`LAB.build` (line 437) attaches a `QuantDepthwiseConv2D` whose depthwise
kernel is a trainable weight.  No other variant assigns a variable
(`AveragePooling2D` and the nested `SteSign` of Niblack/Sauvola hold no
weights; flip-ratio metric variables are non-trainable).  The
`non_trainable_weights` override above does not remove anything from
`trainable_weights`. -/
def trainable_weights (built : Bool) (v : Variant) : List String :=
  match v with
  | .lab beta =>
    (if beta = none ∨ beta = some 0 then ["soft_argmax_beta"] else []) ++
      (if built then ["conv/depthwise_kernel"] else [])
  | _ => []

/-- `_BaseQuantizer` construction state relevant to `get_kernel_quantizer`:
the `metrics` argument stored as `_custom_metrics` (quantizers.py lines
171-172), `none` modelling Python `None`. -/
structure BaseQuantizerState where
  custom_metrics : Option (List String)
  deriving DecidableEq

/-- What `get_kernel_quantizer`'s inner `get` may resolve to: a
`_BaseQuantizer` instance or a plain callable that is not one. -/
inductive KernelResolved
  | base (q : BaseQuantizerState)
  | plain (tag : Nat)
  deriving DecidableEq

/-- Python truthiness of the `_custom_metrics` attribute: `None` and the
empty list are falsy. -/
def metrics_falsy : Option (List String) → Bool
  | none => true
  | some l => l.isEmpty

/-- `get_kernel_quantizer` (quantizers.py lines 856-868) with the ambient
`context.get_training_metrics()` result passed explicitly (module
`larq/context.py` is not under `src/`; modelled from the spec:
"a process-wide default metrics list").  When the resolved object is a
`_BaseQuantizer` whose `_custom_metrics` is falsy, that field is set to the
ambient list; otherwise the object is returned unchanged. -/
def get_kernel_quantizer (ambient : List String) (r : KernelResolved) :
    KernelResolved :=
  match r with
  | .base q =>
    if metrics_falsy q.custom_metrics then .base ⟨some ambient⟩ else .base q
  | .plain t => .plain t

/-- C1 (counterexample): `SteTern` with `threshold_value = 0.1`,
`ternary_weight_networks = False` on the input `[-0.2, -0.05, 0.05, 0.2]` does
NOT return `[-1, -1, 1, 1]`: the elements `±0.05` lie strictly inside the
threshold band, where `tf.sign(x+t) + tf.sign(x-t) = 0` and the outer
`tf.sign` maps `0` to `0`. -/
theorem ste_tern_threshold_point_one_refuted :
    ste_tern [-(2 : ℚ)/10, -(1 : ℚ)/20, (1 : ℚ)/20, (2 : ℚ)/10] (1/10) false
      ≠ [-1, -1, 1, 1] := by
  norm_num [ste_tern, ste_tern_threshold, tfSign]

/-- C1 (amended): for the ternary quantizer `SteTern` with
`threshold_value = 0.1` and `ternary_weight_networks = False`, the input
`[-0.2, -0.05, 0.05, 0.2]` returns `[-1, 0, 0, 1]` — the forward computation
per element is `sign(sign(x+t) + sign(x-t))`, so the two elements inside the
band map to `0` — and the boundary input `x = 0.1` (exactly `+t`) maps
to `+1`. -/
theorem ste_tern_threshold_point_one_amended :
    ste_tern [-(2 : ℚ)/10, -(1 : ℚ)/20, (1 : ℚ)/20, (2 : ℚ)/10] (1/10) false
      = [-1, 0, 0, 1] ∧
    ste_tern [(1 : ℚ)/10] (1/10) false = [1] := by
  constructor <;> norm_num [ste_tern, ste_tern_threshold, tfSign]

/-- C4: `_clipped_gradient(x, dy, c)` returns `dy` unchanged when `c` is
`None`, and otherwise returns, elementwise, `dy` where `|x| ≤ c` (boundary
inclusive) and `0` where `|x| > c`; consequently the backward function of
`ste_sign` with `clip_value = 1.0` maps `x = [-2, -0.5, 0.5, 2]`,
`dy = [1, 1, 1, 1]` to `[0, 1, 1, 0]`. -/
theorem clipped_gradient_contract (x dy : List ℚ) (c : ℚ) (i : Nat)
    (hx : i < x.length) (hy : i < dy.length) :
    clipped_gradient x dy none = dy ∧
    (clipped_gradient x dy (some c))[i]?
      = some (if |x.get ⟨i, hx⟩| ≤ c then dy.get ⟨i, hy⟩ else 0) ∧
    ste_sign_grad [-2, -(1 : ℚ)/2, 1/2, 2] (some 1) [1, 1, 1, 1]
      = [0, 1, 1, 0] := by
  refine ⟨rfl, ?_, ?_⟩
  · simp [clipped_gradient, List.getElem?_zipWith', List.getElem?_eq_getElem hx,
      List.getElem?_eq_getElem hy]
  · norm_num [ste_sign_grad, clipped_gradient, abs]

/-- C4 (witness): the elementwise characterization applied at the concrete
input `x = [-2]`, `dy = [7]`, `c = 1`, `i = 0`. -/
theorem clipped_gradient_contract_witness :
    clipped_gradient [-2] [7] none = [7] ∧
    (clipped_gradient [-2] [7] (some 1))[0]?
      = some (if |List.get [-(2 : ℚ)] ⟨0, by norm_num⟩| ≤ 1
          then List.get [(7 : ℚ)] ⟨0, by norm_num⟩ else 0) ∧
    ste_sign_grad [-2, -(1 : ℚ)/2, 1/2, 2] (some 1) [1, 1, 1, 1]
      = [0, 1, 1, 0] :=
  clipped_gradient_contract [-2] [7] 1 0 (by norm_num) (by norm_num)

/-- C5: `DoReFa` in activations mode first hard-clips the input to `[0, 1]`
and then applies `round(x * n) / n` with `n = 2^k_bit - 1`; the custom
backward gradient of the quantization step is the identity; and for
`k_bit = 1` the input `[-0.3, 0.2, 0.8, 1.5]` clips to `[0, 0.2, 0.8, 1]` and
produces `[0, 0, 1, 1]`. -/
theorem dorefa_activations_quantization (tanh : ℚ → ℚ) (k : Nat) (x : List ℚ)
    (dy : List ℚ) :
    DoReFa.call tanh ⟨k, "activations"⟩ x
      = .ok (k_bit_with_identity_grad k (x.map (fun v => clip_by_value v 0 1))) ∧
    k_bit_identity_grad dy = dy ∧
    [-(3 : ℚ)/10, 2/10, 8/10, 3/2].map (fun v => clip_by_value v 0 1)
      = [0, 2/10, 8/10, 1] ∧
    DoReFa.call tanh ⟨1, "activations"⟩ [-(3 : ℚ)/10, 2/10, 8/10, 3/2]
      = .ok [0, 0, 1, 1] := by
  refine ⟨rfl, rfl, ?_, ?_⟩
  · norm_num [clip_by_value]
  · have h1 : roundHalfEven (0 : ℚ) = 0 := by norm_num [roundHalfEven]
    have h2 : roundHalfEven ((1 : ℚ)/5) = 0 := by norm_num [roundHalfEven]
    have h3 : roundHalfEven ((4 : ℚ)/5) = 1 := by norm_num [roundHalfEven]
    have h4 : roundHalfEven (1 : ℚ) = 1 := by norm_num [roundHalfEven]
    simp [DoReFa.call, k_bit_with_identity_grad, clip_by_value]
    norm_num [dorefa_n]
    exact ⟨h1, h2, h3, h4⟩

theorem reduce_max_abs_const_zero (l : List ℚ) :
    reduce_max_abs (l.map (fun _ => 0)) = 0 := by
  induction l <;> simp_all [reduce_max_abs]

/-- C2 (counterexample): for `DoReFa(k_bit=2, mode="weights")` on an all-zero
input the final returned output element is `1/3`, not `0`: the guarded
normalization yields `0`, which is mapped to `0.5`, quantized to
`round(0.5 * 3)/3 = 2/3` (`tf.round` rounds the half to even), and rescaled to
`2 * 2/3 - 1 = 1/3`.  On an all-zero input only `tanh 0 = 0` is consulted, so
the limiter is instantiated with the constant-zero function, which agrees with
`tf.math.tanh` there. -/
theorem dorefa_weights_zero_divisor_refuted :
    DoReFa.call (fun _ => 0) ⟨2, "weights"⟩ [0] = .ok [1/3] ∧
    ¬ ((1 : ℚ)/3 = 0) := by
  have h32 : roundHalfEven ((3 : ℚ)/2) = 2 := by
    simp only [roundHalfEven]
    norm_num
  constructor
  · simp only [DoReFa.call, if_neg (by decide : ¬ ("weights" = "activations")),
      if_pos rfl]
    norm_num [weight_preprocess, reduce_max_abs, divide_no_nan,
      k_bit_with_identity_grad, dorefa_n, h32]
  · norm_num

/-- C2 (amended): for `DoReFa` in weights mode, when every input element is
`0` (so the normalization divisor `max |tanh(x)|` is `0`) the call does not
raise an error: `divide_no_nan` yields `0` for every element, the
pre-quantization value is `0.5`, and the final returned output element is
`2 * round(n/2)/n - 1` with `n = 2^k_bit - 1` — for the default `k_bit = 2`
this is `1/3`, not `0`. -/
theorem dorefa_weights_zero_divisor_amended (tanh : ℚ → ℚ) (k : Nat)
    (x : List ℚ) (h0 : tanh 0 = 0) (hx : ∀ e ∈ x, e = 0) :
    weight_preprocess tanh x = x.map (fun _ => 1/2) ∧
    DoReFa.call tanh ⟨k, "weights"⟩ x
      = .ok (x.map (fun _ =>
          2 * ((roundHalfEven (dorefa_n k / 2) : ℚ) / dorefa_n k) - 1)) ∧
    2 * ((roundHalfEven (dorefa_n 2 / 2) : ℚ) / dorefa_n 2) - 1 = 1/3 := by
  have hlim : x.map tanh = x.map (fun _ => 0) := by
    apply List.map_congr_left
    intro a ha
    rw [hx a ha, h0]
  have hpre : weight_preprocess tanh x = x.map (fun _ => 1/2) := by
    simp only [weight_preprocess, hlim, reduce_max_abs_const_zero,
      List.map_map]
    simp [divide_no_nan, Function.comp_def]
  have harg : (2⁻¹ : ℚ) * dorefa_n k = dorefa_n k / 2 := by ring
  refine ⟨hpre, ?_, ?_⟩
  · simp only [DoReFa.call, if_neg (by decide : ¬ ("weights" = "activations")),
      if_pos rfl, hpre, k_bit_with_identity_grad, List.map_map]
    simp [Function.comp_def, harg]
  · have h32 : roundHalfEven ((3 : ℚ)/2) = 2 := by
      simp only [roundHalfEven]
      norm_num
    norm_num [dorefa_n, h32]

/-- C2 (witness): the amended statement applied at `tanh := fun _ => 0`
(which satisfies `tanh 0 = 0`), `k_bit = 2`, input `[0, 0]`. -/
theorem dorefa_weights_zero_divisor_amended_witness :
    weight_preprocess (fun _ => 0) [0, 0] = [0, 0].map (fun _ => 1/2) ∧
    DoReFa.call (fun _ => 0) ⟨2, "weights"⟩ [0, 0]
      = .ok (([0, 0] : List ℚ).map (fun _ =>
          2 * ((roundHalfEven (dorefa_n 2 / 2) : ℚ) / dorefa_n 2) - 1)) ∧
    2 * ((roundHalfEven (dorefa_n 2 / 2) : ℚ) / dorefa_n 2) - 1 = 1/3 :=
  dorefa_weights_zero_divisor_amended (fun _ => 0) 2 [0, 0] rfl (by simp)

/-- C3 (code bug): constructing a fresh `SteSign` from the configuration
record returned by `get_config()` does not succeed: the record always contains
the Keras `name` entry, and `SteSign.__init__` passes `name="ste_sign"+uid`
explicitly while also forwarding `**kwargs`, so `from_config` raises
`TypeError` (`name` receives two values) instead of reconstructing the
instance. -/
theorem steSign_from_config_raises :
    steSign_from_config (steSign_get_config ⟨1, "ste_sign1"⟩) 2
      = .error
        "TypeError: __init__() got multiple values for keyword argument \x27name\x27" := by
  rfl

/-- C6: shape preservation across the variants: `compute_output_shape` is the
identity; the elementwise variants (`NoOp` via the base `call`, `SteSign`,
`ApproxSign`, `SwishSign`, `SteHeaviside`, `SteTern`, `MagnitudeAwareSign`,
both `DoReFa` modes) return outputs of the input's length; and the spatial
variants (`LAB`, `Niblack`, `Sauvola`) map any rank-4 shape with nonzero
dimensions to itself. -/
theorem quantizer_shape_preservation (s : List Nat) (x : List ℚ) (t : ℚ)
    (twn : Bool) (k : Nat) (th : ℚ → ℚ) (n h w c : Nat)
    (hh : 0 < h) (hw : 0 < w) (hc : 0 < c) :
    compute_output_shape s = s ∧
    (base_quantizer_call x).length = x.length ∧
    (ste_sign x).length = x.length ∧
    (approx_sign x).length = x.length ∧
    (swish_sign x).length = x.length ∧
    (ste_heaviside x).length = x.length ∧
    (ste_tern x t twn).length = x.length ∧
    (magnitude_aware_sign x).length = x.length ∧
    (∃ y, DoReFa.call th ⟨k, "activations"⟩ x = .ok y ∧ y.length = x.length) ∧
    (∃ y, DoReFa.call th ⟨k, "weights"⟩ x = .ok y ∧ y.length = x.length) ∧
    lab_call_shape [n, h, w, c] = some [n, h, w, c] ∧
    niblack_sauvola_call_shape [n, h, w, c] = some [n, h, w, c] := by
  have hdiv : n * (h * (w * (2 * c))) / (h * w * 2 * c) = n := by
    rw [show n * (h * (w * (2 * c))) = n * (h * w * 2 * c) by ring]
    exact Nat.mul_div_cancel _ (by positivity)
  refine ⟨rfl, rfl, ?_, ?_, ?_, ?_, ?_, ?_, ?_, ?_, ?_, ?_⟩
  · simp [ste_sign]
  · simp [approx_sign]
  · simp [swish_sign]
  · simp [ste_heaviside]
  · simp [ste_tern]
  · simp [magnitude_aware_sign, ste_sign]
  · exact ⟨_, rfl, by simp [k_bit_with_identity_grad]⟩
  · refine ⟨(k_bit_with_identity_grad k (weight_preprocess th x)).map
      (fun v => 2 * v - 1), ?_, ?_⟩
    · simp only [DoReFa.call,
        if_neg (by decide : ¬ ("weights" = "activations")), if_pos rfl,
        if_true]
    · simp [k_bit_with_identity_grad, weight_preprocess]
  · simp [lab_call_shape, quant_depthwise_conv2d_shape, reshape_lab_shape,
      argmax_axis3_shape, hdiv]
  · simp [niblack_sauvola_call_shape, avg_pool_same_shape]

/-- C6 (witness): the shape-preservation statement applied at the concrete
shape `[5]`, input `[1, 2]`, and rank-4 shape `[1, 1, 1, 1]`. -/
theorem quantizer_shape_preservation_witness :
    compute_output_shape [5] = [5] ∧
    (base_quantizer_call [1, 2]).length = ([1, 2] : List ℚ).length ∧
    (ste_sign [1, 2]).length = ([1, 2] : List ℚ).length ∧
    (approx_sign [1, 2]).length = ([1, 2] : List ℚ).length ∧
    (swish_sign [1, 2]).length = ([1, 2] : List ℚ).length ∧
    (ste_heaviside [1, 2]).length = ([1, 2] : List ℚ).length ∧
    (ste_tern [1, 2] 1 true).length = ([1, 2] : List ℚ).length ∧
    (magnitude_aware_sign [1, 2]).length = ([1, 2] : List ℚ).length ∧
    (∃ y, DoReFa.call (fun q => q) ⟨2, "activations"⟩ [1, 2] = .ok y ∧
      y.length = ([1, 2] : List ℚ).length) ∧
    (∃ y, DoReFa.call (fun q => q) ⟨2, "weights"⟩ [1, 2] = .ok y ∧
      y.length = ([1, 2] : List ℚ).length) ∧
    lab_call_shape [1, 1, 1, 1] = some [1, 1, 1, 1] ∧
    niblack_sauvola_call_shape [1, 1, 1, 1] = some [1, 1, 1, 1] :=
  quantizer_shape_preservation [5] [1, 2] 1 true 2 (fun q => q) 1 1 1 1
    (by norm_num) (by norm_num) (by norm_num)

/-- C7: constructing `DoReFa` with a mode other than `"activations"` or
`"weights"` raises a `ValueError` identifying the invalid value and the
allowed set, the two valid modes construct successfully, and `call` raises
the identical `ValueError` again defensively when an invalid mode is set on
the instance. -/
theorem dorefa_mode_validation (k : Nat) (mode : String) (x : List ℚ)
    (th : ℚ → ℚ) (hm : mode ≠ "activations" ∧ mode ≠ "weights") :
    DoReFa.init k mode = .error (DoReFa.errMsg mode) ∧
    DoReFa.call th ⟨k, mode⟩ x = .error (DoReFa.errMsg mode) ∧
    DoReFa.init k "activations" = .ok ⟨k, "activations"⟩ ∧
    DoReFa.init k "weights" = .ok ⟨k, "weights"⟩ ∧
    DoReFa.errMsg mode
      = "Invalid DoReFa quantizer mode " ++ mode
          ++ ". Valid values are \x27activations\x27 and \x27weights\x27." := by
  obtain ⟨h1, h2⟩ := hm
  refine ⟨?_, ?_, ?_, ?_, ?_⟩
  · simp [DoReFa.init, h1, h2]
  · simp [DoReFa.call, h1, h2]
  · simp [DoReFa.init]
  · simp [DoReFa.init]
  · rw [DoReFa.errMsg, String.append_assoc]
    rfl

/-- C7 (witness): the validation statement applied at the concrete invalid
mode `"foo"`. -/
theorem dorefa_mode_validation_witness :
    DoReFa.init 2 "foo" = .error (DoReFa.errMsg "foo") ∧
    DoReFa.call (fun q => q) ⟨2, "foo"⟩ [1] = .error (DoReFa.errMsg "foo") ∧
    DoReFa.init 2 "activations" = .ok ⟨2, "activations"⟩ ∧
    DoReFa.init 2 "weights" = .ok ⟨2, "weights"⟩ ∧
    DoReFa.errMsg "foo"
      = "Invalid DoReFa quantizer mode " ++ "foo"
          ++ ". Valid values are \x27activations\x27 and \x27weights\x27." :=
  dorefa_mode_validation 2 "foo" [1] (fun q => q) (by decide)

/-- C8: `get(identifier)` returns `None` for `None`, deserializes a mapping
via the registered-name lookup, resolves a resolvable string, returns an
already-constructed callable unchanged, and fails on an unresolvable string
with an error naming the identifier and the kind "quantization function". -/
theorem get_identifier_dispatch (s bad c : String) (cfg : List (String × CVal))
    (t : Nat) (hs : resolvable s = true) (hbad : resolvable bad = false)
    (hc : resolvable c = true) :
    quantizers.get .none = .ok none ∧
    quantizers.get (.dict c cfg) = .ok (some (.inst c cfg)) ∧
    quantizers.get (.str s) = .ok (some (.inst s [])) ∧
    quantizers.get (.str bad) = .error ("Unknown quantization function: " ++ bad) ∧
    quantizers.get (.callable t) = .ok (some (.callable t)) := by
  refine ⟨rfl, ?_, ?_, ?_, rfl⟩ <;>
    simp [quantizers.get, deserialize, hs, hbad, hc, Except.map]

/-- C8 (witness): the dispatch statement applied at the registered alias
`"ste_sign"`, the unregistered string `"foo"`, and the module global
`"SteSign"`. -/
theorem get_identifier_dispatch_witness :
    quantizers.get .none = .ok none ∧
    quantizers.get (.dict "SteSign" [("clip_value", .q 1)])
      = .ok (some (.inst "SteSign" [("clip_value", .q 1)])) ∧
    quantizers.get (.str "ste_sign") = .ok (some (.inst "ste_sign" [])) ∧
    quantizers.get (.str "foo")
      = .error ("Unknown quantization function: " ++ "foo") ∧
    quantizers.get (.callable 0) = .ok (some (.callable 0)) :=
  get_identifier_dispatch "ste_sign" "foo" "SteSign" [("clip_value", .q 1)] 0
    (by decide) (by decide) (by decide)

/-- C9 (counterexample): `LAB` constructed with an unset `beta` owns the
learnable `tf.Variable` `soft_argmax_beta`, which Keras tracks as a trainable
weight (only `non_trainable_weights` is overridden), so its parameter list
seen by the host optimizer is not empty. -/
theorem lab_trainable_weights_refuted :
    trainable_weights false (.lab none) = ["soft_argmax_beta"] ∧
    trainable_weights false (.lab none) ≠ [] := by
  constructor <;> simp [trainable_weights]

/-- C9 (amended): `non_trainable_weights` is overridden to the empty list for
every variant, and no variant other than `LAB` contributes trainable
parameters; `LAB` does (its learnable soft-argmax beta and, once built, its
depthwise convolution kernel). -/
theorem quantizer_trainable_weights_amended (v : Variant) (b : Bool)
    (hv : ∀ beta, v ≠ .lab beta) :
    non_trainable_weights v = [] ∧ trainable_weights b v = [] := by
  cases v with
  | lab beta => exact absurd rfl (hv beta)
  | _ => exact ⟨rfl, rfl⟩

/-- C9 (witness): the amended statement applied at `SteSign`. -/
theorem quantizer_trainable_weights_amended_witness :
    non_trainable_weights .steSign = [] ∧
    trainable_weights true .steSign = [] :=
  quantizer_trainable_weights_amended .steSign true
    (fun _ h => Variant.noConfusion h)

/-- C10: `get_kernel_quantizer` attaches the ambient default training-metrics
list to a resolved `_BaseQuantizer` whose constructor-time `metrics` argument
is falsy — `None` or an explicitly passed empty list — leaves a
`_BaseQuantizer` with a nonempty metrics list unchanged, and leaves a resolved
object that is not a `_BaseQuantizer` unmodified. -/
theorem get_kernel_quantizer_metrics (ambient l : List String) (t : Nat)
    (hl : l ≠ []) :
    get_kernel_quantizer ambient (.base ⟨none⟩) = .base ⟨some ambient⟩ ∧
    get_kernel_quantizer ambient (.base ⟨some []⟩) = .base ⟨some ambient⟩ ∧
    get_kernel_quantizer ambient (.base ⟨some l⟩) = .base ⟨some l⟩ ∧
    get_kernel_quantizer ambient (.plain t) = .plain t := by
  refine ⟨rfl, rfl, ?_, rfl⟩
  simp [get_kernel_quantizer, metrics_falsy, hl]

/-- C10 (witness): the statement applied at the ambient list
`["flip_ratio"]` and the nonempty explicit list `["flip_ratio"]`. -/
theorem get_kernel_quantizer_metrics_witness :
    get_kernel_quantizer ["flip_ratio"] (.base ⟨none⟩)
      = .base ⟨some ["flip_ratio"]⟩ ∧
    get_kernel_quantizer ["flip_ratio"] (.base ⟨some []⟩)
      = .base ⟨some ["flip_ratio"]⟩ ∧
    get_kernel_quantizer ["flip_ratio"] (.base ⟨some ["flip_ratio"]⟩)
      = .base ⟨some ["flip_ratio"]⟩ ∧
    get_kernel_quantizer ["flip_ratio"] (.plain 0) = .plain 0 :=
  get_kernel_quantizer_metrics ["flip_ratio"] ["flip_ratio"] 0 (by simp)
